import Mathlib

/-!
Shallow embedding of `src/src/Pages/Dashboard/AstroDate.jsx` (the `AstroDate`
React component). The component keeps five pieces of state
(`selectedDate`, `resultText`, `sources`, `isLoading`, `error`), performs a
single backend call per search (`fetchNasaHistory`), guards the search behind
a button that is disabled while loading or while no date is selected
(`handleSearch` plus the `disabled` attribute), and renders a view that is a
function of the state.  Asynchrony is modelled by splitting the search into
its synchronous prefix (up to the first `await`) and the settling of the
request, and by a labelled transition system over component configurations.
-/

namespace AstroDate

/-- A source citation object, as built at lines 40-45 of `AstroDate.jsx`:
`{ uri: ..., title: ... }`. -/
structure Source where
  uri : String
  title : String
  deriving DecidableEq, Repr

/-- The `apod` payload `{title, explanation, url}` returned by the backend. -/
structure Apod where
  title : String
  explanation : String
  url : String
  deriving DecidableEq, Repr

/-- The `apod` field of the parsed JSON body.  JavaScript distinguishes a key
that is absent, a key present with a falsy value (such as `null`), and a key
holding an object; `if (data.apod)` at line 34 tests truthiness, and an object
is always truthy. -/
inductive ApodField where
  | absent
  | nullVal
  | obj (a : Apod)
  deriving DecidableEq, Repr

/-- The parsed JSON body of a backend response: `{ apod?: { ... } }`. -/
structure ResponseBody where
  apod : ApodField
  deriving DecidableEq, Repr

/-- The outcome of `await fetch(...)` together with `await response.json()`:
either the fetch itself throws (network fault, carrying `err.message`), or a
response arrives with an HTTP status and a body whose JSON parse may itself
throw (`Except.error` carries the parse fault message). -/
inductive FetchResult where
  | fetchThrow (msg : String)
  | response (status : Nat) (body : Except String ResponseBody)
  deriving Repr

/-- `response.ok` per the fetch API: status in the range 200-299. -/
def respOk (status : Nat) : Bool :=
  200 ≤ status && status < 300

/-- The component state: the five `useState` hooks of `AstroDate`
(lines 6-17). -/
structure ComponentState where
  selectedDate : String
  resultText : Option String
  sources : List Source
  isLoading : Bool
  error : Option String
  deriving DecidableEq, Repr

/-- The initial state at mount: `selectedDate` is today as an ISO string
(modelled as the parameter `d`), `resultText = null`, `sources = []`,
`isLoading = false`, `error = null`. -/
def initState (d : String) : ComponentState :=
  { selectedDate := d, resultText := none, sources := [], isLoading := false,
    error := none }

/-- The synchronous prefix of `fetchNasaHistory` (lines 21-24): set
`isLoading` to true and clear `error`, `resultText` and `sources`. -/
def loadingState (s : ComponentState) : ComponentState :=
  { s with isLoading := true, error := none, resultText := none, sources := [] }

/-- The `catch` block (lines 49-52): set `error` to a message embedding
`err.message`. -/
def catchFail (s : ComponentState) (msg : String) : ComponentState :=
  { s with error := some ("Failed to fetch NASA data: " ++ msg) }

/-- Lines 34-48: branch on the truthiness of `data.apod`.  When it is an
object, set `resultText` to the em-dash concatenation and `sources` to the
singleton citation (with the `|| "NASA APOD"` fallback for an empty title);
otherwise set the fixed fallback text. -/
def applyApod (s : ComponentState) (f : ApodField) : ComponentState :=
  match f with
  | .obj a =>
      { s with
        resultText := some (a.title ++ " — " ++ a.explanation),
        sources := [{ uri := a.url,
                      title := if a.title = "" then "NASA APOD" else a.title }] }
  | _ => { s with resultText := some "No APOD data available for this date." }

/-- The `try`/`catch` body of `fetchNasaHistory` applied to the settled fetch
outcome (lines 26-52): a thrown fetch or a non-2xx status or a JSON parse
fault lands in the catch block; otherwise the `apod` branch runs. -/
def settle (s : ComponentState) (r : FetchResult) : ComponentState :=
  match r with
  | .fetchThrow msg => catchFail s msg
  | .response status body =>
      if respOk status then
        match body with
        | .error msg => catchFail s msg
        | .ok b => applyApod s b.apod
      else
        catchFail s ("Failed with status: " ++ toString status)

/-- Settling the request from a given (already loading) state: the try/catch
outcome followed by `setIsLoading(false)` at line 54, which runs on every
path. -/
def resolveFetch (s : ComponentState) (r : FetchResult) : ComponentState :=
  { settle s r with isLoading := false }

/-- The whole `fetchNasaHistory` operation (lines 20-55) as a function of the
state at dispatch and of the fetch outcome. -/
def fetchNasaHistory (s : ComponentState) (r : FetchResult) : ComponentState :=
  resolveFetch (loadingState s) r

/-- `handleSearch` (lines 58-64): when `selectedDate` is truthy (a non-empty
string) dispatch `fetchNasaHistory`, whose synchronous prefix is
`loadingState`; otherwise only set the validation error.  The boolean records
whether a network request was issued. -/
def handleSearch (s : ComponentState) : ComponentState × Bool :=
  if s.selectedDate = "" then
    ({ s with error := some "Please select a valid date." }, false)
  else
    (loadingState s, true)

/-- The `disabled` attribute of the submit button (line 104):
`isLoading || !selectedDate`. -/
def buttonDisabled (s : ComponentState) : Bool :=
  s.isLoading || s.selectedDate == ""

/-- Whether a `FetchResult` lands in the catch block of `fetchNasaHistory`. -/
def FetchResult.fails : FetchResult → Bool
  | .fetchThrow _ => true
  | .response status body =>
      if respOk status then
        match body with
        | .error _ => true
        | .ok _ => false
      else true

/-- The `err.message` seen by the catch block for a failing outcome. -/
def FetchResult.detail : FetchResult → String
  | .fetchThrow msg => msg
  | .response status body =>
      if respOk status then
        match body with
        | .error msg => msg
        | .ok _ => ""
      else "Failed with status: " ++ toString status

/-- A rendered citation link (lines 159-171): href is `source.uri`, and both
the link text and the title attribute fall back to the uri when the title is
an empty (falsy) string. -/
structure SourceLink where
  href : String
  text : String
  titleAttr : String
  deriving DecidableEq, Repr

/-- The rendered result card (lines 137-176): header with the formatted date,
the result text, and the citation list when `sources.length > 0`. -/
structure ResultPanel where
  header : String
  body : String
  citations : Option (List SourceLink)
  deriving DecidableEq, Repr

/-- The visible output of the component (lines 77-179), reduced to the parts
that vary with the state: the submit button, the error panel, the loading
indicator, and the result panel. -/
structure View where
  buttonDisabled : Bool
  buttonLabel : String
  errorPanel : Option String
  loadingIndicator : Bool
  resultPanel : Option ResultPanel
  deriving DecidableEq, Repr

/-- `formattedResultDate` (lines 67-74): the locale formatting of
`new Date(selectedDate)` is modelled by the environment parameter `fmt`;
an empty (falsy) `selectedDate` yields the fixed fallback label. -/
def formattedResultDate (fmt : String → String) (s : ComponentState) : String :=
  if s.selectedDate = "" then "Selected Date" else fmt s.selectedDate

/-- One citation list item (lines 159-171). -/
def renderSource (src : Source) : SourceLink :=
  { href := src.uri,
    text := if src.title = "" then src.uri else src.title,
    titleAttr := if src.title = "" then src.uri else src.title }

/-- The render function of `AstroDate` (the JSX at lines 77-179) as a map
from the component state to the view.  The `error &&` and `resultText &&`
guards are truthiness tests, so an empty string behaves like null. -/
def render (fmt : String → String) (s : ComponentState) : View :=
  { buttonDisabled := buttonDisabled s,
    buttonLabel := if s.isLoading then "Searching Cosmos..." else "Search Discovery",
    errorPanel :=
      match s.error with
      | some e => if e = "" then none else some e
      | none => none,
    loadingIndicator := s.isLoading,
    resultPanel :=
      match s.resultText with
      | some t =>
          if t = "" then none
          else some
            { header := "Discovery for " ++ formattedResultDate fmt s,
              body := t,
              citations :=
                if s.sources.length > 0 then some (s.sources.map renderSource)
                else none }
      | none => none }

/-- A component configuration: the state of the hooks together with whether a
fetch dispatched by `handleSearch` is still in flight. -/
structure Config where
  comp : ComponentState
  pending : Bool
  deriving Repr

/-- The configuration at mount, `d` being the initial ISO date string. -/
def initConfig (d : String) : Config :=
  { comp := initState d, pending := false }

/-- The discrete events of the component. -/
inductive Act where
  | setDate (d : String)
  | search
  | resolve (r : FetchResult)

/-- The event-step relation of the component.  `setDate` is the date input
handler (line 97); `search` is a click on the submit button, possible only
while the button is not disabled, and runs the synchronous prefix of the
dispatched fetch; `resolve` is the settling of the in-flight request. -/
inductive Step : Config → Act → Config → Prop where
  | setDate (c : Config) (d : String) :
      Step c (.setDate d) { comp := { c.comp with selectedDate := d }, pending := c.pending }
  | search (c : Config) (h : buttonDisabled c.comp = false) :
      Step c .search { comp := loadingState c.comp, pending := true }
  | resolve (c : Config) (r : FetchResult) (h : c.pending = true) :
      Step c (.resolve r) { comp := resolveFetch c.comp r, pending := false }

/-- One step under some event. -/
def StepAny (c c2 : Config) : Prop := ∃ a, Step c a c2

/-- The configurations reachable from mount with initial date `d`. -/
def Reachable (d : String) (c : Config) : Prop :=
  Relation.ReflTransGen StepAny (initConfig d) c

/-- The inductive invariant of the component: `isLoading` mirrors the
in-flight flag, at most one of `resultText` and `error` is set, and while a
request is in flight both are cleared. -/
def Inv (c : Config) : Prop :=
  c.comp.isLoading = c.pending ∧
  (c.comp.resultText = none ∨ c.comp.error = none) ∧
  (c.pending = true → c.comp.resultText = none ∧ c.comp.error = none)

lemma settle_excl (s : ComponentState) (r : FetchResult)
    (h1 : s.resultText = none) (h2 : s.error = none) :
    (settle s r).resultText = none ∨ (settle s r).error = none := by
  cases r with
  | fetchThrow msg => exact Or.inl (by simp [settle, catchFail, h1])
  | response status body =>
      by_cases hok : respOk status = true
      · cases body with
        | error msg => exact Or.inl (by simp [settle, hok, catchFail, h1])
        | ok b =>
            cases hb : b.apod with
            | absent => exact Or.inr (by simp [settle, hok, hb, applyApod, h2])
            | nullVal => exact Or.inr (by simp [settle, hok, hb, applyApod, h2])
            | obj a => exact Or.inr (by simp [settle, hok, hb, applyApod, h2])
      · exact Or.inl (by simp [settle, hok, catchFail, h1])

lemma resolveFetch_isLoading (s : ComponentState) (r : FetchResult) :
    (resolveFetch s r).isLoading = false := rfl

lemma stepAny_inv (c c2 : Config) (h : StepAny c c2) (hi : Inv c) : Inv c2 := by
  obtain ⟨a, hs⟩ := h
  cases hs with
  | setDate d => exact hi
  | search hen => exact ⟨rfl, Or.inl rfl, fun _ => ⟨rfl, rfl⟩⟩
  | resolve r hp =>
      obtain ⟨h1, h2, h3⟩ := hi
      obtain ⟨hr, he⟩ := h3 hp
      exact ⟨resolveFetch_isLoading _ _, settle_excl c.comp r hr he,
        fun hfalse => nomatch hfalse⟩

lemma reachable_inv (d : String) (c : Config) (h : Reachable d c) : Inv c := by
  induction h with
  | refl => exact ⟨rfl, Or.inl rfl, fun hp => nomatch hp⟩
  | tail hsteps hstep ih => exact stepAny_inv _ _ hstep ih

/-- C1: when the response is 2xx and the body holds an apod object, the
search sets `resultText` to the title and explanation joined by an em-dash
and `sources` to the singleton citation whose uri is `apod.url` and whose
title is `apod.title`, falling back to "NASA APOD" when the title is
empty. -/
theorem apod_success_sets_result_and_sources (s : ComponentState)
    (status : Nat) (a : Apod) (hok : respOk status = true) :
    (fetchNasaHistory s (.response status (.ok ⟨.obj a⟩))).resultText =
      some (a.title ++ " — " ++ a.explanation) ∧
    (fetchNasaHistory s (.response status (.ok ⟨.obj a⟩))).sources =
      [{ uri := a.url,
         title := if a.title = "" then "NASA APOD" else a.title }] ∧
    (fetchNasaHistory s (.response status (.ok ⟨.obj a⟩))).error = none := by
  refine ⟨?_, ?_, ?_⟩ <;>
    simp [fetchNasaHistory, resolveFetch, settle, hok, applyApod, loadingState]

/-- Witness for C1 at a concrete 200 response. -/
theorem apod_success_witness :
    (fetchNasaHistory (initState "2024-01-01")
      (.response 200 (.ok ⟨.obj
        ⟨"Eagle Nebula", "Pillars of Creation.", "https://apod.nasa.gov/x"⟩⟩))).resultText =
      some "Eagle Nebula — Pillars of Creation." ∧
    (fetchNasaHistory (initState "2024-01-01")
      (.response 200 (.ok ⟨.obj
        ⟨"Eagle Nebula", "Pillars of Creation.", "https://apod.nasa.gov/x"⟩⟩))).sources =
      [{ uri := "https://apod.nasa.gov/x", title := "Eagle Nebula" }] ∧
    (fetchNasaHistory (initState "2024-01-01")
      (.response 200 (.ok ⟨.obj
        ⟨"Eagle Nebula", "Pillars of Creation.", "https://apod.nasa.gov/x"⟩⟩))).error = none := by
  have h := apod_success_sets_result_and_sources (initState "2024-01-01") 200
    ⟨"Eagle Nebula", "Pillars of Creation.", "https://apod.nasa.gov/x"⟩ (by decide)
  exact ⟨h.1.trans (by decide), h.2.1.trans (by decide), h.2.2⟩

/-- C2: any failing fetch outcome (non-2xx status, thrown fetch, or JSON
parse fault) sets `error` to a message embedding the failure detail while
`resultText` stays null and `sources` stays empty; for a 500 status the
message contains "500". -/
theorem fetch_failure_sets_error (s : ComponentState) (r : FetchResult)
    (h : r.fails = true) :
    (fetchNasaHistory s r).error =
      some ("Failed to fetch NASA data: " ++ r.detail) ∧
    (fetchNasaHistory s r).resultText = none ∧
    (fetchNasaHistory s r).sources = [] ∧
    (∀ body, r = FetchResult.response 500 body →
      ∃ pre post, (fetchNasaHistory s r).error = some (pre ++ "500" ++ post)) := by
  cases r with
  | fetchThrow msg =>
      refine ⟨?_, ?_, ?_, fun body hb => nomatch hb⟩ <;>
        simp [fetchNasaHistory, resolveFetch, settle, catchFail, loadingState,
          FetchResult.detail]
  | response status body =>
      by_cases hok : respOk status = true
      · cases body with
        | error msg =>
            refine ⟨?_, ?_, ?_, ?_⟩
            · simp [fetchNasaHistory, resolveFetch, settle, hok, catchFail,
                loadingState, FetchResult.detail]
            · simp [fetchNasaHistory, resolveFetch, settle, hok, catchFail,
                loadingState]
            · simp [fetchNasaHistory, resolveFetch, settle, hok, catchFail,
                loadingState]
            · intro b hb
              injection hb with hst hbd
              subst hst
              exact absurd hok (by decide)
        | ok b => simp [FetchResult.fails, hok] at h
      · refine ⟨?_, ?_, ?_, ?_⟩
        · simp [fetchNasaHistory, resolveFetch, settle, hok, catchFail,
            loadingState, FetchResult.detail]
        · simp [fetchNasaHistory, resolveFetch, settle, hok, catchFail,
            loadingState]
        · simp [fetchNasaHistory, resolveFetch, settle, hok, catchFail,
            loadingState]
        · intro b hb
          injection hb with hst hbd
          subst hst
          exact ⟨"Failed to fetch NASA data: Failed with status: ", "", rfl⟩

/-- Witness for C2 at a concrete 500 response. -/
theorem fetch_failure_witness :
    (fetchNasaHistory (initState "2024-01-01")
      (.response 500 (.ok ⟨.absent⟩))).error =
      some "Failed to fetch NASA data: Failed with status: 500" ∧
    (fetchNasaHistory (initState "2024-01-01")
      (.response 500 (.ok ⟨.absent⟩))).resultText = none ∧
    (fetchNasaHistory (initState "2024-01-01")
      (.response 500 (.ok ⟨.absent⟩))).sources = [] := by
  have h := fetch_failure_sets_error (initState "2024-01-01")
    (.response 500 (.ok ⟨.absent⟩)) (by decide)
  exact ⟨h.1.trans (by decide), h.2.1, h.2.2.1⟩

/-- C3: in every reachable configuration, at most one of `resultText` and
`error` is non-null, and `isLoading` is true exactly while a dispatched
request is unresolved. -/
theorem state_exclusivity_and_loading_window (d : String) (c : Config)
    (h : Reachable d c) :
    ¬(c.comp.resultText ≠ none ∧ c.comp.error ≠ none) ∧
    c.comp.isLoading = c.pending := by
  obtain ⟨h1, h2, _⟩ := reachable_inv d c h
  refine ⟨?_, h1⟩
  rintro ⟨hr, he⟩
  cases h2 with
  | inl hn => exact hr hn
  | inr hn => exact he hn

/-- Witness for C3 at the mount configuration. -/
theorem state_exclusivity_witness :
    ¬((initConfig "2024-01-01").comp.resultText ≠ none ∧
      (initConfig "2024-01-01").comp.error ≠ none) ∧
    (initConfig "2024-01-01").comp.isLoading = (initConfig "2024-01-01").pending :=
  state_exclusivity_and_loading_window "2024-01-01" _ Relation.ReflTransGen.refl

/-- C4: submitting while the selected date is empty issues no network request
and only sets the validation error message. -/
theorem empty_date_no_request (s : ComponentState) (h : s.selectedDate = "") :
    handleSearch s =
      ({ s with error := some "Please select a valid date." }, false) := by
  simp [handleSearch, h]

/-- Witness for C4 at a state with an empty date. -/
theorem empty_date_no_request_witness :
    handleSearch (initState "") =
      ({ initState "" with error := some "Please select a valid date." }, false) :=
  empty_date_no_request (initState "") rfl

/-- C5: when the response is 2xx and the body has no `apod` key, the search
sets `resultText` to the fixed fallback string and leaves `sources` empty. -/
theorem missing_apod_fallback (s : ComponentState) (status : Nat)
    (hok : respOk status = true) :
    (fetchNasaHistory s (.response status (.ok ⟨.absent⟩))).resultText =
      some "No APOD data available for this date." ∧
    (fetchNasaHistory s (.response status (.ok ⟨.absent⟩))).sources = [] ∧
    (fetchNasaHistory s (.response status (.ok ⟨.absent⟩))).error = none := by
  refine ⟨?_, ?_, ?_⟩ <;>
    simp [fetchNasaHistory, resolveFetch, settle, hok, applyApod, loadingState]

/-- Witness for C5 at a concrete 201 response. -/
theorem missing_apod_witness :
    (fetchNasaHistory (initState "2024-01-01")
      (.response 201 (.ok ⟨.absent⟩))).resultText =
      some "No APOD data available for this date." ∧
    (fetchNasaHistory (initState "2024-01-01")
      (.response 201 (.ok ⟨.absent⟩))).sources = [] ∧
    (fetchNasaHistory (initState "2024-01-01")
      (.response 201 (.ok ⟨.absent⟩))).error = none :=
  missing_apod_fallback (initState "2024-01-01") 201 (by decide)

/-- C6: a search from a non-empty date dispatches a request with `isLoading`
set to true synchronously, and whichever way the one in-flight request
settles, the operation terminates with `isLoading` false. -/
theorem search_loading_lifecycle (s : ComponentState)
    (h : ¬ s.selectedDate = "") :
    (handleSearch s).2 = true ∧
    (handleSearch s).1.isLoading = true ∧
    ∀ r : FetchResult, (resolveFetch (handleSearch s).1 r).isLoading = false := by
  refine ⟨?_, ?_, fun r => resolveFetch_isLoading _ r⟩ <;>
    simp [handleSearch, h, loadingState]

/-- Witness for C6 at the mount state and a concrete thrown fetch. -/
theorem search_loading_witness :
    (handleSearch (initState "2024-01-01")).2 = true ∧
    (handleSearch (initState "2024-01-01")).1.isLoading = true ∧
    (resolveFetch (handleSearch (initState "2024-01-01")).1
      (.fetchThrow "NetworkError")).isLoading = false := by
  have h := search_loading_lifecycle (initState "2024-01-01") (by decide)
  exact ⟨h.1, h.2.1, h.2.2 (.fetchThrow "NetworkError")⟩

/-- C7: the submit button is disabled whenever the component is loading or no
date is selected, and in any reachable configuration with a request still in
flight the button is disabled and no search step can fire, so at most one
request is ever in flight. -/
theorem single_flight_guard (d : String) (c : Config) (h : Reachable d c) :
    (∀ t : ComponentState, t.isLoading = true ∨ t.selectedDate = "" →
      buttonDisabled t = true) ∧
    (c.pending = true →
      buttonDisabled c.comp = true ∧ ∀ c2, ¬ Step c Act.search c2) := by
  obtain ⟨h1, _, _⟩ := reachable_inv d c h
  constructor
  · intro t ht
    cases ht with
    | inl hl => simp [buttonDisabled, hl]
    | inr hd => simp [buttonDisabled, hd]
  · intro hp
    have hdis : buttonDisabled c.comp = true := by
      simp [buttonDisabled, h1.trans hp]
    refine ⟨hdis, fun c2 hstep => ?_⟩
    cases hstep with
    | search hen => rw [hen] at hdis; exact nomatch hdis

/-- Witness for C7 at the configuration reached by one search from mount. -/
theorem single_flight_guard_witness :
    buttonDisabled (loadingState (initState "2024-01-01")) = true := by
  have hr : Reachable "2024-01-01"
      { comp := loadingState (initState "2024-01-01"), pending := true } :=
    Relation.ReflTransGen.single
      ⟨Act.search, Step.search (initConfig "2024-01-01") (by decide)⟩
  exact ((single_flight_guard "2024-01-01" _ hr).2 rfl).1

/-- C8: the renderer is a deterministic pure function of the component state:
two states agreeing on `selectedDate`, `resultText`, `sources`, `isLoading`
and `error` render to identical views under the same date formatter. -/
theorem render_pure_function (fmt : String → String) (s t : ComponentState)
    (h1 : s.selectedDate = t.selectedDate) (h2 : s.resultText = t.resultText)
    (h3 : s.sources = t.sources) (h4 : s.isLoading = t.isLoading)
    (h5 : s.error = t.error) :
    render fmt s = render fmt t := by
  have hst : s = t := by cases s; cases t; simp_all
  rw [hst]

/-- Witness for C8 at two equal concrete states built differently. -/
theorem render_pure_witness :
    render id (loadingState (initState "2024-01-01")) =
      render id
        { selectedDate := "2024-01-01", resultText := none, sources := [],
          isLoading := true, error := none } :=
  render_pure_function id _ _ rfl rfl rfl rfl rfl

/-- C9: the validation-error branch of `handleSearch` changes only `error`:
`resultText`, `sources`, `isLoading` and `selectedDate` keep their previous
values, so an earlier result is not cleared. -/
theorem empty_date_frame (s : ComponentState) (h : s.selectedDate = "") :
    (handleSearch s).1.resultText = s.resultText ∧
    (handleSearch s).1.sources = s.sources ∧
    (handleSearch s).1.isLoading = s.isLoading ∧
    (handleSearch s).1.selectedDate = s.selectedDate ∧
    (handleSearch s).1.error = some "Please select a valid date." ∧
    (handleSearch s).2 = false := by
  simp [handleSearch, h]

/-- Witness for C9 at a state holding an earlier successful result. -/
theorem empty_date_frame_witness :
    (handleSearch
      { selectedDate := "", resultText := some "old result",
        sources := [{ uri := "https://apod.nasa.gov/x", title := "Old" }],
        isLoading := false, error := none }).1.resultText = some "old result" ∧
    (handleSearch
      { selectedDate := "", resultText := some "old result",
        sources := [{ uri := "https://apod.nasa.gov/x", title := "Old" }],
        isLoading := false, error := none }).1.sources =
      [{ uri := "https://apod.nasa.gov/x", title := "Old" }] ∧
    (handleSearch
      { selectedDate := "", resultText := some "old result",
        sources := [{ uri := "https://apod.nasa.gov/x", title := "Old" }],
        isLoading := false, error := none }).1.error =
      some "Please select a valid date." ∧
    (handleSearch
      { selectedDate := "", resultText := some "old result",
        sources := [{ uri := "https://apod.nasa.gov/x", title := "Old" }],
        isLoading := false, error := none }).2 = false := by
  have h := empty_date_frame
    { selectedDate := "", resultText := some "old result",
      sources := [{ uri := "https://apod.nasa.gov/x", title := "Old" }],
      isLoading := false, error := none } rfl
  exact ⟨h.1, h.2.1, h.2.2.2.2.1, h.2.2.2.2.2⟩

/-- C10: a body whose `apod` key holds a falsy value (such as null) is
treated exactly like a body with no `apod` key, because line 34 tests
truthiness: the fallback text is set and `sources` stays empty. -/
theorem falsy_apod_behaves_as_absent (s : ComponentState) (status : Nat)
    (hok : respOk status = true) :
    fetchNasaHistory s (.response status (.ok ⟨.nullVal⟩)) =
      fetchNasaHistory s (.response status (.ok ⟨.absent⟩)) ∧
    (fetchNasaHistory s (.response status (.ok ⟨.nullVal⟩))).resultText =
      some "No APOD data available for this date." ∧
    (fetchNasaHistory s (.response status (.ok ⟨.nullVal⟩))).sources = [] := by
  refine ⟨?_, ?_, ?_⟩ <;>
    simp [fetchNasaHistory, resolveFetch, settle, hok, applyApod, loadingState]

/-- Witness for C10 at a concrete 200 response with a null apod. -/
theorem falsy_apod_witness :
    fetchNasaHistory (initState "2024-01-01")
        (.response 200 (.ok ⟨.nullVal⟩)) =
      fetchNasaHistory (initState "2024-01-01")
        (.response 200 (.ok ⟨.absent⟩)) ∧
    (fetchNasaHistory (initState "2024-01-01")
        (.response 200 (.ok ⟨.nullVal⟩))).resultText =
      some "No APOD data available for this date." ∧
    (fetchNasaHistory (initState "2024-01-01")
        (.response 200 (.ok ⟨.nullVal⟩))).sources = [] :=
  falsy_apod_behaves_as_absent (initState "2024-01-01") 200 (by decide)

end AstroDate
